import Mathlib

/-!
Shallow embedding of the Socket.IO jam-session handlers of `app.py` in the
tunejam repository.  The authoritative session state lives in the Firestore
collection `jam_sessions`; the embedding models that collection as an
association list from document id to document, together with the server-side
`sids_in_jams` registry that routes disconnects.  The per-instance
`jam_sessions` cache (explicitly non-authoritative per the comments in the
source) is not modelled.  `firestore.SERVER_TIMESTAMP` is modelled by the
`now` field of the server state; the random ids produced by
`uuid.uuid4()` / Firestore `document()` are modelled by an injective function
of a per-server counter.  Python `None` is modelled by `Option.none`, and the
uncaught dynamic-typing failure of the membership test on a `None` song is
modelled by `PyError.typeError`.
-/

namespace TuneJam

/-- A Python-level exception that escapes a handler uncaught. -/
inductive PyError where
  | typeError
deriving Repr, DecidableEq

/-- A queued song object as sent by clients; absent keys are `none`. -/
structure Song where
  id : Option String
  song_type : Option String
  videoId : Option String
  url : Option String
  title : Option String
deriving Repr, DecidableEq

/-- The `playback_state` field of a jam document.  The three client-supplied
entries are written unvalidated from payloads (`data.get(...)`), so each may
hold Python `None`, modelled as `Option.none`.  `timestamp` is always written
with `firestore.SERVER_TIMESTAMP`. -/
structure PlaybackState where
  current_track_index : Option Int
  current_playback_time : Option Int
  is_playing : Option Bool
  timestamp : Nat
deriving Repr, DecidableEq

/-- A `jam_sessions` Firestore document. -/
structure JamData where
  name : String
  host_sid : String
  participants : List (String × String)
  playlist : List Song
  playback_state : PlaybackState
  created_at : Nat
  is_active : Bool
  ended_at : Option Nat
deriving Repr, DecidableEq

/-- An entry of the `sids_in_jams` registry. -/
structure SidInfo where
  jam_id : String
  nickname : String
deriving Repr, DecidableEq

/-- Server state: the Firestore collection, the `sids_in_jams` registry, the
current server clock, and the fresh-id counter. -/
structure ServerState where
  sessions : List (String × JamData)
  sids_in_jams : List (String × SidInfo)
  now : Nat
  nextId : Nat
deriving Repr, DecidableEq

/-- Python dict lookup (`d.get(key)`) on a string-keyed association list. -/
def alookup {β : Type} : List (String × β) → String → Option β
  | [], _ => none
  | (k, v) :: rest, key => if k = key then some v else alookup rest key

/-- Python dict assignment `d[k] = v`: replace in place if the key is
present, otherwise append (insertion order is preserved, as in Python). -/
def dictSet {β : Type} : List (String × β) → String → β → List (String × β)
  | [], k, v => [(k, v)]
  | (k0, v0) :: rest, k, v =>
      if k0 = k then (k, v) :: rest else (k0, v0) :: dictSet rest k v

/-- Removal of one key, as in `del d[k]` or the filtering comprehension used
for participants. -/
def dictErase {β : Type} (d : List (String × β)) (k : String) : List (String × β) :=
  d.filter (fun p => p.1 ≠ k)

/-- Python truthiness of an optional string: `None` and the empty string are
falsy. -/
def truthy : Option String → Bool
  | none => false
  | some s => !(s == "")

/-- Python `x and b` where `x` may be `None`: `None and b` is `None`,
`False and b` is `False`, `True and b` is `b`. -/
def pyAnd : Option Bool → Bool → Option Bool
  | none, _ => none
  | some false, _ => some false
  | some true, b => some b

/-- Server-generated unique id (`uuid.uuid4()` / Firestore `document()`),
modelled as an injective function of the per-server counter: the decimal
digits of `n + 1` rendered as characters. -/
def mkId (n : Nat) : String := ⟨(Nat.digits 10 (n + 1)).map Nat.digitChar⟩

/-- Events emitted back over the socket.  Events carrying a jam id are
broadcast to that session's room; the others go to the caller alone. -/
inductive Emit where
  | session_created (jam_id : String) (jam_name : String) (is_host : Bool)
  | join_failed (message : String)
  | session_join_success (jam_id : String) (playlist : List Song)
      (participants : List (String × String))
  | update_participants (jam_id : String) (participants : List (String × String))
  | session_ended (jam_id : String) (message : String)
deriving Repr, DecidableEq

/-- Payload of the `create_session` event. -/
structure CreatePayload where
  jam_name : Option String
  nickname : Option String
deriving Repr, DecidableEq

/-- Payload of the `join_session` event. -/
structure JoinPayload where
  jam_id : Option String
  nickname : Option String
deriving Repr, DecidableEq

/-- Payload of the `sync_playback_state` event.  The client may include its
own `timestamp`; the handler never reads it. -/
structure SyncPayload where
  jam_id : Option String
  current_track_index : Option Int
  current_playback_time : Option Int
  is_playing : Option Bool
  playlist : Option (List Song)
  timestamp : Option Nat
deriving Repr, DecidableEq

/-- Payload of the `add_song_to_jam` event. -/
structure AddPayload where
  jam_id : Option String
  song : Option Song
deriving Repr, DecidableEq

/-- Payload of the `remove_song_from_jam` event. -/
structure RemovePayload where
  jam_id : Option String
  song_id : Option String
deriving Repr, DecidableEq

/-- The `create_session` handler: a fresh Firestore id, the requester as
host and sole participant, empty playlist, playback at rest, active. -/
def create_session (st : ServerState) (sid : String) (data : CreatePayload) :
    ServerState × List Emit :=
  let jam_name := data.jam_name.getD "Unnamed Jam Session"
  let nickname := data.nickname.getD "Host"
  let jam_id := mkId st.nextId
  let initial : JamData :=
    { name := jam_name
      host_sid := sid
      participants := [(sid, nickname)]
      playlist := []
      playback_state :=
        { current_track_index := some 0
          current_playback_time := some 0
          is_playing := some false
          timestamp := st.now }
      created_at := st.now
      is_active := true
      ended_at := none }
  ({ st with
      sessions := dictSet st.sessions jam_id initial
      sids_in_jams := dictSet st.sids_in_jams sid ⟨jam_id, nickname⟩
      nextId := st.nextId + 1 },
   [Emit.session_created jam_id jam_name true])

/-- The `join_session` handler: rejects a missing jam id, a missing document
and an inactive session with `join_failed`; otherwise writes the requester
into `participants` (dict assignment, so an existing entry is overwritten in
place) and emits the current state plus a participants update. -/
def join_session_handler (st : ServerState) (sid : String) (data : JoinPayload) :
    ServerState × List Emit :=
  let nickname := data.nickname.getD "Guest"
  if truthy data.jam_id = false then
    (st, [Emit.join_failed "Jam ID is missing."])
  else
    let jam_id := data.jam_id.getD ""
    match alookup st.sessions jam_id with
    | none => (st, [Emit.join_failed "Jam session not found or has ended."])
    | some jam =>
      if jam.is_active = false then
        (st, [Emit.join_failed "Jam session not found or has ended."])
      else
        let updated_participants := dictSet jam.participants sid nickname
        ({ st with
            sessions := dictSet st.sessions jam_id
              { jam with participants := updated_participants }
            sids_in_jams := dictSet st.sids_in_jams sid ⟨jam_id, nickname⟩ },
         [Emit.session_join_success jam_id jam.playlist updated_participants,
          Emit.update_participants jam_id updated_participants])

/-- The `disconnect` handler: if the socket was the host of its jam the
session is flipped inactive, `ended_at` is stamped with the server time and
`session_ended` is broadcast; a non-host participant is removed from
`participants`; in every case the socket leaves `sids_in_jams`. -/
def handle_disconnect (st : ServerState) (sid : String) : ServerState × List Emit :=
  match alookup st.sids_in_jams sid with
  | none => (st, [])
  | some info =>
    match alookup st.sessions info.jam_id with
    | none => ({ st with sids_in_jams := dictErase st.sids_in_jams sid }, [])
    | some jam =>
      if jam.host_sid = sid then
        ({ st with
            sessions := dictSet st.sessions info.jam_id
              { jam with is_active := false, ended_at := some st.now }
            sids_in_jams := dictErase st.sids_in_jams sid },
         [Emit.session_ended info.jam_id "Host disconnected. Session ended."])
      else if (alookup jam.participants sid).isSome then
        ({ st with
            sessions := dictSet st.sessions info.jam_id
              { jam with participants := dictErase jam.participants sid }
            sids_in_jams := dictErase st.sids_in_jams sid },
         [Emit.update_participants info.jam_id (dictErase jam.participants sid)])
      else
        ({ st with sids_in_jams := dictErase st.sids_in_jams sid }, [])

/-- The `sync_playback_state` handler: silently returns on a missing jam id,
a missing document, or a non-host requester; for the host it replaces
`playback_state` (with the three client values unvalidated and `timestamp`
stamped from the server clock) and the whole `playlist` in one update. -/
def sync_playback_state (st : ServerState) (sid : String) (data : SyncPayload) :
    ServerState × List Emit :=
  if truthy data.jam_id = false then (st, [])
  else
    let jam_id := data.jam_id.getD ""
    match alookup st.sessions jam_id with
    | none => (st, [])
    | some jam =>
      if jam.host_sid ≠ sid then (st, [])
      else
        ({ st with
            sessions := dictSet st.sessions jam_id
              { jam with
                  playback_state :=
                    { current_track_index := data.current_track_index
                      current_playback_time := data.current_playback_time
                      is_playing := data.is_playing
                      timestamp := st.now }
                  playlist := data.playlist.getD [] } },
         [])

/-- The `add_song_to_jam` handler.  The id-assignment membership test
`'id' not in song` runs before any validation and outside the handler's
try block, so a `None` song raises an uncaught `TypeError`.  Validation
failures, a missing document and a non-host requester all return silently;
otherwise the song is appended to the end of the playlist.  Note that the
fresh-id counter is consumed by the assignment even when a later check
fails, mirroring `uuid.uuid4()` being drawn before validation. -/
def add_song_to_jam (st : ServerState) (sid : String) (data : AddPayload) :
    Except PyError (ServerState × List Emit) :=
  match data.song with
  | none => Except.error PyError.typeError
  | some song0 =>
    let song := if song0.id = none then { song0 with id := some (mkId st.nextId) } else song0
    let st := if song0.id = none then { st with nextId := st.nextId + 1 } else st
    if truthy data.jam_id = false ∨ truthy song.song_type = false then
      Except.ok (st, [])
    else if song.song_type = some "youtube" ∧ truthy song.videoId = false then
      Except.ok (st, [])
    else if (song.song_type = some "audio" ∨ song.song_type = some "youtube_download") ∧
        truthy song.url = false then
      Except.ok (st, [])
    else
      match alookup st.sessions (data.jam_id.getD "") with
      | none => Except.ok (st, [])
      | some jam =>
        if jam.host_sid ≠ sid then Except.ok (st, [])
        else
          Except.ok
            ({ st with
                sessions := dictSet st.sessions (data.jam_id.getD "")
                  { jam with playlist := jam.playlist ++ [song] } },
             [])

/-- Index of the first song whose id equals the given id; the source's
sentinel `-1` becomes `none`. -/
def findSongIdx : List Song → String → Option Nat
  | [], _ => none
  | s :: rest, song_id =>
      if s.id = some song_id then some 0
      else (findSongIdx rest song_id).map (· + 1)

/-- The `remove_song_from_jam` handler.  Missing fields, a missing document,
a non-host requester and an unknown song id all return silently with no
state change.  On a successful removal the stored `current_track_index` is
adjusted (an index equal to the removed position wraps to 0 when the
playlist became empty or the removed position was the last; a larger index
is decremented), `current_playback_time` is reset to 0 unconditionally,
`is_playing` is and-ed with the playlist being nonempty, and the stored
`timestamp` is not touched (the dotted-field update names only the other
three playback fields).  A stored index of Python `None` makes the
comparison chain raise a `TypeError` that the handler's except clause
swallows before any Firestore write. -/
def remove_song_from_jam (st : ServerState) (sid : String) (data : RemovePayload) :
    ServerState × List Emit :=
  if truthy data.jam_id = false ∨ truthy data.song_id = false then (st, [])
  else
    let jam_id := data.jam_id.getD ""
    let song_id_to_remove := data.song_id.getD ""
    match alookup st.sessions jam_id with
    | none => (st, [])
    | some jam =>
      if jam.host_sid ≠ sid then (st, [])
      else
        match findSongIdx jam.playlist song_id_to_remove with
        | none => (st, [])
        | some index_to_remove =>
          let current_playlist := jam.playlist.eraseIdx index_to_remove
          match jam.playback_state.current_track_index with
          | none => (st, [])
          | some cti =>
            let cti' : Int :=
              if cti = (index_to_remove : Int) then
                if current_playlist.length = 0 then 0
                else if (index_to_remove : Int) ≥ (current_playlist.length : Int) then 0
                else cti
              else if cti > (index_to_remove : Int) then cti - 1
              else cti
            ({ st with
                sessions := dictSet st.sessions jam_id
                  { jam with
                      playlist := current_playlist
                      playback_state :=
                        { current_track_index := some cti'
                          current_playback_time := some 0
                          is_playing :=
                            pyAnd jam.playback_state.is_playing
                              (decide (0 < current_playlist.length))
                          timestamp := jam.playback_state.timestamp } } },
             [])

/-- Spec definition: the index-shift rule exactly as the specification
states it, for comparison with the handler (removed == current: 0 when the
playlist is now empty, 0 when the removed index was the last position, else
unchanged; removed < current: decrement; removed > current: unchanged). -/
def specShiftedIndex (cti : Int) (removed : Nat) (oldLen : Nat) : Int :=
  if (removed : Int) = cti then
    (if oldLen - 1 = 0 then 0
     else if removed = oldLen - 1 then 0
     else cti)
  else if (removed : Int) < cti then cti - 1
  else cti

/-- The spec's per-session invariant: currentTrackIndex is an integer with
0 ≤ currentTrackIndex < max(1, len(playlist)), isPlaying holds a genuine
boolean, and an empty playlist forces isPlaying false. -/
def sessionInvariant (jam : JamData) : Prop :=
  (∃ n : Int, jam.playback_state.current_track_index = some n ∧
    0 ≤ n ∧ n < max 1 (jam.playlist.length : Int)) ∧
  (∃ b : Bool, jam.playback_state.is_playing = some b) ∧
  (jam.playlist = [] → jam.playback_state.is_playing = some false)

/-- The invariant holding for every stored session. -/
def StateInv (st : ServerState) : Prop :=
  ∀ jid jam, alookup st.sessions jid = some jam → sessionInvariant jam

/-- Example song with a client-supplied id. -/
def exSong (i : String) : Song :=
  { id := some i, song_type := some "audio", videoId := none,
    url := some ("http://h/" ++ i), title := some i }

/-- Example active session hosted by H with guest G and two queued songs,
currently playing the first one. -/
def exJam : JamData :=
  { name := "Friday Mix"
    host_sid := "H"
    participants := [("H", "Host"), ("G", "Guest")]
    playlist := [exSong "a", exSong "b"]
    playback_state :=
      { current_track_index := some 0
        current_playback_time := some 37
        is_playing := some true
        timestamp := 50 }
    created_at := 10
    is_active := true
    ended_at := none }

/-- Example server state holding `exJam` under the id J. -/
def exSt : ServerState :=
  { sessions := [("J", exJam)]
    sids_in_jams := [("H", ⟨"J", "Host"⟩), ("G", ⟨"J", "Guest"⟩)]
    now := 100
    nextId := 0 }

/-- Lookup after dict assignment: the assigned key reads the new value,
every other key is unaffected. -/
theorem alookup_dictSet {β : Type} (d : List (String × β)) (k : String) (v : β)
    (key : String) :
    alookup (dictSet d k v) key = if k = key then some v else alookup d key := by
  induction d with
  | nil =>
    by_cases h : k = key <;> simp [dictSet, alookup, h]
  | cons p rest ih =>
    obtain ⟨k0, v0⟩ := p
    by_cases h1 : k0 = k
    · subst h1
      by_cases h2 : k0 = key <;> simp [dictSet, alookup, h2]
    · by_cases h2 : k0 = key
      · subst h2
        have hk : ¬ k = k0 := fun h => h1 h.symm
        simp [dictSet, alookup, h1, hk]
      · simp [dictSet, alookup, h1, h2, ih]

/-- Dict assignment to a key that is already present keeps the dict's size. -/
theorem length_dictSet_of_lookup {β : Type} (d : List (String × β)) (k : String)
    (v v0 : β) (h : alookup d k = some v0) :
    (dictSet d k v).length = d.length := by
  induction d with
  | nil => simp [alookup] at h
  | cons p rest ih =>
    obtain ⟨k0, v0'⟩ := p
    by_cases h1 : k0 = k
    · simp [dictSet, h1]
    · simp only [alookup, h1, if_neg] at h
      simp [dictSet, h1, ih h]

/-- The index returned by the song search is in bounds. -/
theorem findSongIdx_lt_length (l : List Song) (song_id : String) (i : Nat)
    (h : findSongIdx l song_id = some i) : i < l.length := by
  induction l generalizing i with
  | nil => simp [findSongIdx] at h
  | cons s rest ih =>
    by_cases hs : s.id = some song_id
    · simp only [findSongIdx, hs, if_true, Option.some.injEq] at h
      simp only [List.length_cons]
      omega
    · simp only [findSongIdx, hs, if_false] at h
      rcases hj : findSongIdx rest song_id with _ | j
      · rw [hj] at h; simp at h
      · rw [hj] at h
        simp only [Option.map_some', Option.some.injEq] at h
        have := ih j hj
        simp only [List.length_cons]
        omega

/-- The found song indeed carries the searched id. -/
theorem findSongIdx_id (l : List Song) (song_id : String) (i : Nat)
    (h : findSongIdx l song_id = some i) :
    ∃ s, l.get? i = some s ∧ s.id = some song_id := by
  induction l generalizing i with
  | nil => simp [findSongIdx] at h
  | cons s rest ih =>
    by_cases hs : s.id = some song_id
    · simp only [findSongIdx, hs, if_true, Option.some.injEq] at h
      subst h
      exact ⟨s, rfl, hs⟩
    · simp only [findSongIdx, hs, if_false] at h
      rcases hj : findSongIdx rest song_id with _ | j
      · rw [hj] at h; simp at h
      · rw [hj] at h
        simp only [Option.map_some', Option.some.injEq] at h
        subst h
        obtain ⟨t, ht, hid⟩ := ih j hj
        exact ⟨t, by simpa using ht, hid⟩

/-- Python `and` on a genuine boolean is boolean conjunction. -/
theorem pyAnd_some (b c : Bool) : pyAnd (some b) c = some (b && c) := by
  cases b <;> rfl

/-- Decimal digit characters distinguish digits. -/
theorem digitChar_injOn :
    ∀ a < 10, ∀ b < 10, Nat.digitChar a = Nat.digitChar b → a = b := by decide

/-- Digit-character rendering is injective on lists of decimal digits. -/
theorem map_digitChar_inj (l1 l2 : List Nat) (h1 : ∀ x ∈ l1, x < 10)
    (h2 : ∀ x ∈ l2, x < 10)
    (h : l1.map Nat.digitChar = l2.map Nat.digitChar) : l1 = l2 := by
  induction l1 generalizing l2 with
  | nil => cases l2 <;> simp_all
  | cons a rest ih =>
    cases l2 with
    | nil => simp at h
    | cons b rest2 =>
      simp only [List.map_cons, List.cons.injEq] at h
      have ha : a = b :=
        digitChar_injOn a (h1 a (by simp)) b (h2 b (by simp)) h.1
      have hr : rest = rest2 :=
        ih rest2 (fun x hx => h1 x (by simp [hx]))
          (fun x hx => h2 x (by simp [hx])) h.2
      rw [ha, hr]

/-- The modelled id generator is injective, so successive draws are fresh. -/
theorem mkId_injective : Function.Injective mkId := by
  intro m n h
  have h' := congrArg String.data h
  simp only [mkId] at h'
  have hd : Nat.digits 10 (m + 1) = Nat.digits 10 (n + 1) :=
    map_digitChar_inj _ _
      (fun x hx => Nat.digits_lt_base (by norm_num) hx)
      (fun x hx => Nat.digits_lt_base (by norm_num) hx) h'
  have := congrArg (Nat.ofDigits 10) hd
  rw [Nat.ofDigits_digits, Nat.ofDigits_digits] at this
  omega

/-- The session document produced by the unvalidated host sync used in the
C2 counterexample: track index 5 over an empty playlist. -/
def exBadJam : JamData :=
  { exJam with
      playlist := []
      playback_state :=
        { current_track_index := some 5
          current_playback_time := some 0
          is_playing := some true
          timestamp := 100 } }

/-- Looking up the key just assigned yields the assigned value. -/
theorem alookup_dictSet_self {β : Type} (d : List (String × β)) (k : String) (v : β) :
    alookup (dictSet d k v) k = some v := by
  rw [alookup_dictSet]
  simp

/-- Truthiness of a nonempty-string option is true. -/
theorem truthy_some_of_ne (s : String) (h : s ≠ "") : truthy (some s) = true := by
  simp [truthy, h]

/-- Closed form of a successful removal: with an existing session, the host
as requester and a playlist hit, the handler commits exactly the update of
the source (playlist with the hit removed, adjusted index, playback time 0,
is_playing and-ed with nonemptiness, timestamp untouched) and emits
nothing. -/
theorem remove_song_success
    (st : ServerState) (sid jid tid : String) (jam : JamData) (i : Nat) (cti : Int)
    (hjid : jid ≠ "") (htid : tid ≠ "")
    (hjam : alookup st.sessions jid = some jam)
    (hhost : jam.host_sid = sid)
    (hidx : findSongIdx jam.playlist tid = some i)
    (hcti : jam.playback_state.current_track_index = some cti) :
    remove_song_from_jam st sid ⟨some jid, some tid⟩ =
      ({ st with
          sessions := dictSet st.sessions jid
            { jam with
              playlist := jam.playlist.eraseIdx i
              playback_state :=
                { current_track_index := some (
                    if cti = (i : Int) then
                      if (jam.playlist.eraseIdx i).length = 0 then 0
                      else if (i : Int) ≥ ((jam.playlist.eraseIdx i).length : Int) then 0
                      else cti
                    else if cti > (i : Int) then cti - 1
                    else cti)
                  current_playback_time := some 0
                  is_playing := pyAnd jam.playback_state.is_playing
                    (decide (0 < (jam.playlist.eraseIdx i).length))
                  timestamp := jam.playback_state.timestamp } } }, []) := by
  simp only [remove_song_from_jam, truthy_some_of_ne jid hjid,
    truthy_some_of_ne tid htid, Option.getD_some]
  rw [if_neg (by simp)]
  rw [hjam]
  simp only []
  rw [if_neg (by simp [hhost])]
  rw [hidx]
  simp only []
  rw [hcti]

/-- C10: an add_song_to_jam payload with no song field makes the handler
raise an uncaught TypeError at the id-assignment membership test — the
theorem holds for an arbitrary server state and an arbitrary (even missing
or invalid) jam id, so the failure occurs before any validation or host
check could run, and no result is returned to the caller. -/
theorem C10_missing_song_raises_typeerror (st : ServerState) (sid : String)
    (jid : Option String) :
    add_song_to_jam st sid ⟨jid, none⟩ = Except.error PyError.typeError := rfl

/-- C6 counterexample: the host removes an id occurring nowhere in the
playlist; the handler leaves the entire server state unchanged but the list
of events returned to the caller is empty — no NotFound result is delivered,
contrary to the claim. -/
theorem C6_counterexample :
    (∀ s ∈ exJam.playlist, s.id ≠ some "zzz") ∧
    exJam.host_sid = "H" ∧
    remove_song_from_jam exSt "H" ⟨some "J", some "zzz"⟩ = (exSt, []) :=
  ⟨by decide, rfl, rfl⟩

/-- C6 amended: a removeTrack request naming a track id that does not occur
in the session's playlist is a silent no-op — the server state (playlist and
playbackState included) is unchanged and nothing at all is returned to the
caller, rather than a NotFound result. -/
theorem C6_remove_missing_track_silent
    (st : ServerState) (sid jid tid : String) (jam : JamData)
    (hjid : jid ≠ "") (htid : tid ≠ "")
    (hjam : alookup st.sessions jid = some jam)
    (hmiss : findSongIdx jam.playlist tid = none) :
    remove_song_from_jam st sid ⟨some jid, some tid⟩ = (st, []) := by
  simp only [remove_song_from_jam, truthy_some_of_ne jid hjid,
    truthy_some_of_ne tid htid, Option.getD_some]
  rw [if_neg (by simp)]
  rw [hjam]
  simp only []
  by_cases hh : jam.host_sid = sid
  · rw [if_neg (by simp [hh])]
    rw [hmiss]
  · rw [if_pos hh]

/-- C6 witness: the amended theorem applied to the concrete example. -/
theorem C6_witness :
    remove_song_from_jam exSt "H" ⟨some "J", some "zzz"⟩ = (exSt, []) :=
  C6_remove_missing_track_silent exSt "H" "J" "zzz" exJam (by decide) (by decide)
    (by decide) (by decide)

/-- C7 counterexample: the host removes the song at index 1 while
currentTrackIndex is 0, so the removal does not affect the current target
track; yet currentPositionSeconds is reset from 37 to 0 (and the stored
playback timestamp is left at 50 — it is never bumped by a removal),
contrary to the claim. -/
theorem C7_counterexample :
    exJam.playback_state.current_track_index = some 0 ∧
    findSongIdx exJam.playlist "b" = some 1 ∧
    exJam.playback_state.current_playback_time = some 37 ∧
    (alookup (remove_song_from_jam exSt "H" ⟨some "J", some "b"⟩).1.sessions "J").map
        (fun j => j.playback_state.current_playback_time) = some (some 0) ∧
    (alookup (remove_song_from_jam exSt "H" ⟨some "J", some "b"⟩).1.sessions "J").map
        (fun j => j.playback_state.timestamp) = some 50 :=
  ⟨rfl, rfl, rfl, rfl, rfl⟩

/-- C7 amended: every successful removal resets currentPositionSeconds to 0
unconditionally — also when the removed index is strictly greater than
currentTrackIndex — and the playbackState timestamp is never bumped by a
removal. -/
theorem C7_remove_always_resets_position
    (st : ServerState) (sid jid tid : String) (jam : JamData) (i : Nat) (cti : Int)
    (hjid : jid ≠ "") (htid : tid ≠ "")
    (hjam : alookup st.sessions jid = some jam)
    (hhost : jam.host_sid = sid)
    (hidx : findSongIdx jam.playlist tid = some i)
    (hcti : jam.playback_state.current_track_index = some cti) :
    (alookup (remove_song_from_jam st sid ⟨some jid, some tid⟩).1.sessions jid).map
        (fun j => j.playback_state.current_playback_time) = some (some 0) ∧
    (alookup (remove_song_from_jam st sid ⟨some jid, some tid⟩).1.sessions jid).map
        (fun j => j.playback_state.timestamp) = some jam.playback_state.timestamp := by
  rw [remove_song_success st sid jid tid jam i cti hjid htid hjam hhost hidx hcti]
  constructor
  · rw [alookup_dictSet]
    simp
  · rw [alookup_dictSet]
    simp

/-- C7 witness: the amended theorem applied to the concrete example. -/
theorem C7_witness :
    (alookup (remove_song_from_jam exSt "H" ⟨some "J", some "a"⟩).1.sessions "J").map
        (fun j => j.playback_state.current_playback_time) = some (some 0) ∧
    (alookup (remove_song_from_jam exSt "H" ⟨some "J", some "a"⟩).1.sessions "J").map
        (fun j => j.playback_state.timestamp) = some exJam.playback_state.timestamp :=
  C7_remove_always_resets_position exSt "H" "J" "a" exJam 0 0 (by decide) (by decide)
    (by decide) rfl (by decide) rfl

/-- C3 counterexample: G is a registered member but not the host; its sync
request leaves the server state bit-for-bit unchanged and returns an empty
event list — no Forbidden failure reaches the caller, contrary to the
claim's first half. -/
theorem C3_counterexample :
    exJam.host_sid ≠ "G" ∧
    (alookup exJam.participants "G").isSome = true ∧
    sync_playback_state exSt "G" ⟨some "J", some 1, some 5, some true, some [], some 999⟩
      = (exSt, []) :=
  ⟨by decide, by decide, rfl⟩

/-- C3 amended: a sync_playback_state request from a non-host is silently
ignored (state unchanged, no event — not a Forbidden result); a request from
the host replaces playbackState and the playlist in one update, stamping the
timestamp with the current server time.  The client-supplied timestamp ts is
universally quantified and absent from the result, so it is ignored. -/
theorem C3_sync_host_authoritative
    (st : ServerState) (sid jid : String) (jam : JamData)
    (idx time : Option Int) (playing : Option Bool) (pl : Option (List Song))
    (ts : Option Nat)
    (hjid : jid ≠ "")
    (hjam : alookup st.sessions jid = some jam) :
    (jam.host_sid ≠ sid →
      sync_playback_state st sid ⟨some jid, idx, time, playing, pl, ts⟩ = (st, [])) ∧
    (jam.host_sid = sid →
      sync_playback_state st sid ⟨some jid, idx, time, playing, pl, ts⟩ =
        ({ st with
            sessions := dictSet st.sessions jid
              { jam with
                playback_state :=
                  { current_track_index := idx
                    current_playback_time := time
                    is_playing := playing
                    timestamp := st.now }
                playlist := pl.getD [] } }, [])) := by
  constructor
  · intro hne
    simp only [sync_playback_state, truthy_some_of_ne jid hjid, Option.getD_some]
    rw [if_neg (by simp)]
    rw [hjam]
    simp only []
    rw [if_pos hne]
  · intro heq
    simp only [sync_playback_state, truthy_some_of_ne jid hjid, Option.getD_some]
    rw [if_neg (by simp)]
    rw [hjam]
    simp only []
    rw [if_neg (by simp [heq])]

/-- C3 witness: the amended theorem applied to the concrete example, host
side, discharging both hypotheses. -/
theorem C3_witness :
    (exJam.host_sid ≠ "H" →
      sync_playback_state exSt "H" ⟨some "J", some 1, some 5, some true, some [], some 999⟩
        = (exSt, [])) ∧
    (exJam.host_sid = "H" →
      sync_playback_state exSt "H" ⟨some "J", some 1, some 5, some true, some [], some 999⟩ =
        ({ exSt with
            sessions := dictSet exSt.sessions "J"
              { exJam with
                playback_state :=
                  { current_track_index := some 1
                    current_playback_time := some 5
                    is_playing := some true
                    timestamp := exSt.now }
                playlist := [] } }, [])) :=
  C3_sync_host_authoritative exSt "H" "J" exJam (some 1) (some 5) (some true)
    (some []) (some 999) (by decide) rfl

/-- C5 counterexample: G is a registered member but not the host (and the
code stores no canAdd permission anywhere); G's well-formed addTrack request
leaves the playlist unchanged, but the caller receives no event at all — in
particular no Forbidden result — contrary to the claim. -/
theorem C5_counterexample :
    exJam.host_sid ≠ "G" ∧
    (alookup exJam.participants "G").isSome = true ∧
    add_song_to_jam exSt "G" ⟨some "J", some (exSong "c")⟩ = Except.ok (exSt, []) :=
  ⟨by decide, by decide, rfl⟩

/-- C5 amended: add_song_to_jam accepts the request exactly when the
requester is the host — member records consist only of a nickname, so no
canAdd permission exists and no non-host can ever add; the rejection is
silent (state unchanged, no Forbidden event) and the playlist is
unchanged, while the host's request appends the song. -/
theorem C5_addTrack_host_only
    (st : ServerState) (sid jid : String) (jam : JamData) (song : Song)
    (hjid : jid ≠ "")
    (hjam : alookup st.sessions jid = some jam)
    (hid : song.id ≠ none)
    (hty : song.song_type = some "audio")
    (hurl : truthy song.url = true) :
    (jam.host_sid ≠ sid →
       add_song_to_jam st sid ⟨some jid, some song⟩ = Except.ok (st, [])) ∧
    (jam.host_sid = sid →
       add_song_to_jam st sid ⟨some jid, some song⟩ =
         Except.ok ({ st with
             sessions := dictSet st.sessions jid
               { jam with playlist := jam.playlist ++ [song] } }, [])) := by
  have hred : ∀ st' : ServerState,
      (if song.id = none then { st' with nextId := st'.nextId + 1 } else st') = st' :=
    fun st' => if_neg hid
  constructor
  · intro hne
    simp only [add_song_to_jam, if_neg hid, truthy_some_of_ne jid hjid,
      Option.getD_some]
    rw [if_neg (by simp [hty, truthy])]
    rw [if_neg (by simp [hty])]
    rw [if_neg (by simp [hty, hurl])]
    rw [hjam]
    simp only []
    rw [if_pos hne]
  · intro heq
    simp only [add_song_to_jam, if_neg hid, truthy_some_of_ne jid hjid,
      Option.getD_some]
    rw [if_neg (by simp [hty, truthy])]
    rw [if_neg (by simp [hty])]
    rw [if_neg (by simp [hty, hurl])]
    rw [hjam]
    simp only []
    rw [if_neg (by simp [heq])]

/-- C5 witness: the amended theorem applied to the concrete example, both
sides dischargeable, host side instantiated. -/
theorem C5_witness :
    (exJam.host_sid ≠ "H" →
       add_song_to_jam exSt "H" ⟨some "J", some (exSong "c")⟩ = Except.ok (exSt, [])) ∧
    (exJam.host_sid = "H" →
       add_song_to_jam exSt "H" ⟨some "J", some (exSong "c")⟩ =
         Except.ok ({ exSt with
             sessions := dictSet exSt.sessions "J"
               { exJam with playlist := exJam.playlist ++ [exSong "c"] } }, [])) :=
  C5_addTrack_host_only exSt "H" "J" exJam (exSong "c") (by decide) rfl
    (by decide) rfl (by decide)

/-- Closed form of a successful add with an id-less song: the fresh id drawn
from the counter is stamped onto the song, the song is appended at the end
of the playlist, the counter advances, and nothing is emitted. -/
theorem add_song_success_fresh
    (st : ServerState) (sid jid : String) (jam : JamData) (song : Song)
    (hjid : jid ≠ "")
    (hjam : alookup st.sessions jid = some jam)
    (hhost : jam.host_sid = sid)
    (hid : song.id = none)
    (hty : song.song_type = some "audio")
    (hurl : truthy song.url = true) :
    add_song_to_jam st sid ⟨some jid, some song⟩ =
      Except.ok ({ st with
          sessions := dictSet st.sessions jid
            { jam with playlist :=
                jam.playlist ++ [{ song with id := some (mkId st.nextId) }] }
          nextId := st.nextId + 1 }, []) := by
  simp only [add_song_to_jam, hid, if_pos, truthy_some_of_ne jid hjid,
    Option.getD_some]
  rw [if_neg (by simp [hty, truthy])]
  rw [if_neg (by simp [hty])]
  rw [if_neg (by simp [hty, hurl])]
  rw [hjam]
  simp only []
  rw [if_neg (by simp [hhost])]

/-- C1: for a session whose playlist contains the requested track (first hit
at index i) and a well-typed stored index, the host's removeTrack applies
exactly the index-shift rule the claim states (`specShiftedIndex`), and
isPlaying is forced false when the playlist becomes empty. -/
theorem C1_removeTrack_index_shift
    (st : ServerState) (sid jid tid : String) (jam : JamData)
    (i : Nat) (cti : Int) (b : Bool)
    (hjid : jid ≠ "") (htid : tid ≠ "")
    (hjam : alookup st.sessions jid = some jam)
    (hhost : jam.host_sid = sid)
    (hidx : findSongIdx jam.playlist tid = some i)
    (hcti : jam.playback_state.current_track_index = some cti)
    (hip : jam.playback_state.is_playing = some b) :
    (alookup (remove_song_from_jam st sid ⟨some jid, some tid⟩).1.sessions jid).map
        (fun j => j.playlist) = some (jam.playlist.eraseIdx i) ∧
    (alookup (remove_song_from_jam st sid ⟨some jid, some tid⟩).1.sessions jid).map
        (fun j => j.playback_state.current_track_index)
      = some (some (specShiftedIndex cti i jam.playlist.length)) ∧
    (jam.playlist.eraseIdx i = [] →
      (alookup (remove_song_from_jam st sid ⟨some jid, some tid⟩).1.sessions jid).map
          (fun j => j.playback_state.is_playing) = some (some false)) := by
  have hi : i < jam.playlist.length := findSongIdx_lt_length _ _ _ hidx
  have hlen : (jam.playlist.eraseIdx i).length = jam.playlist.length - 1 := by
    rw [List.length_eraseIdx]
    simp [hi]
  rw [remove_song_success st sid jid tid jam i cti hjid htid hjam hhost hidx hcti]
  refine ⟨?_, ?_, ?_⟩
  · simp [alookup_dictSet_self]
  · simp only [alookup_dictSet_self, Option.map_some', Option.some.injEq]
    rw [hlen]
    simp only [specShiftedIndex]
    have h1 : 1 ≤ jam.playlist.length := by omega
    split_ifs <;> omega
  · intro hemp
    simp only [alookup_dictSet_self, Option.map_some', Option.some.injEq]
    rw [hip, hemp]
    simp [pyAnd_some]

/-- C1 witness: the index-shift theorem on the concrete example — the host
removes the current track at index 0 from a two-song playlist. -/
theorem C1_witness :
    (alookup (remove_song_from_jam exSt "H" ⟨some "J", some "a"⟩).1.sessions "J").map
        (fun j => j.playlist) = some (exJam.playlist.eraseIdx 0) ∧
    (alookup (remove_song_from_jam exSt "H" ⟨some "J", some "a"⟩).1.sessions "J").map
        (fun j => j.playback_state.current_track_index)
      = some (some (specShiftedIndex 0 0 exJam.playlist.length)) ∧
    (exJam.playlist.eraseIdx 0 = [] →
      (alookup (remove_song_from_jam exSt "H" ⟨some "J", some "a"⟩).1.sessions "J").map
          (fun j => j.playback_state.is_playing) = some (some false)) :=
  C1_removeTrack_index_shift exSt "H" "J" "a" exJam 0 0 true (by decide) (by decide)
    rfl rfl (by decide) rfl rfl

/-- C4: when the host of an active session disconnects, the stored document
is flipped inactive with endedAt stamped at the current server time,
session_ended is broadcast to the session's room, and any subsequent
join_session for that id fails with the not-found failure and leaves the
state unchanged. -/
theorem C4_host_disconnect_ends_session
    (st : ServerState) (sid jid nick : String) (jam : JamData)
    (hinfo : alookup st.sids_in_jams sid = some ⟨jid, nick⟩)
    (hjam : alookup st.sessions jid = some jam)
    (hhost : jam.host_sid = sid)
    (hactive : jam.is_active = true)
    (hjid : jid ≠ "") :
    jam.is_active = true ∧
    handle_disconnect st sid =
      ({ st with
          sessions := dictSet st.sessions jid
            { jam with is_active := false, ended_at := some st.now }
          sids_in_jams := dictErase st.sids_in_jams sid },
       [Emit.session_ended jid "Host disconnected. Session ended."]) ∧
    (∀ sid2 nick2,
      join_session_handler (handle_disconnect st sid).1 sid2 ⟨some jid, some nick2⟩ =
        ((handle_disconnect st sid).1,
         [Emit.join_failed "Jam session not found or has ended."])) := by
  refine ⟨hactive, ?_⟩
  have h1 : handle_disconnect st sid =
      ({ st with
          sessions := dictSet st.sessions jid
            { jam with is_active := false, ended_at := some st.now }
          sids_in_jams := dictErase st.sids_in_jams sid },
       [Emit.session_ended jid "Host disconnected. Session ended."]) := by
    simp only [handle_disconnect]
    rw [hinfo]
    simp only []
    rw [hjam]
    simp only []
    rw [if_pos hhost]
  refine ⟨h1, ?_⟩
  intro sid2 nick2
  rw [h1]
  simp only [join_session_handler, truthy_some_of_ne jid hjid, Option.getD_some]
  rw [if_neg (by simp)]
  rw [alookup_dictSet_self]
  simp

/-- C4 witness: the theorem on the concrete example, with the subsequent
join instantiated for a fresh client X. -/
theorem C4_witness :
    handle_disconnect exSt "H" =
      ({ exSt with
          sessions := dictSet exSt.sessions "J"
            { exJam with is_active := false, ended_at := some exSt.now }
          sids_in_jams := dictErase exSt.sids_in_jams "H" },
       [Emit.session_ended "J" "Host disconnected. Session ended."]) ∧
    join_session_handler (handle_disconnect exSt "H").1 "X" ⟨some "J", some "New"⟩ =
      ((handle_disconnect exSt "H").1,
       [Emit.join_failed "Jam session not found or has ended."]) :=
  ⟨(C4_host_disconnect_ends_session exSt "H" "J" "Host" exJam rfl rfl rfl rfl
      (by decide)).2.1,
   (C4_host_disconnect_ends_session exSt "H" "J" "Host" exJam rfl rfl rfl rfl
      (by decide)).2.2 "X" "New"⟩

/-- C8: joining again with an identity that is already a member updates that
member's entry in place: the member count is unchanged, only that identity's
nickname changes, every other member's entry is untouched, and the rest of
the session document (playlist, playback state, host) is unchanged. -/
theorem C8_join_idempotent
    (st : ServerState) (sid jid nick oldNick : String) (jam : JamData)
    (hjid : jid ≠ "")
    (hjam : alookup st.sessions jid = some jam)
    (hactive : jam.is_active = true)
    (hmem : alookup jam.participants sid = some oldNick) :
    join_session_handler st sid ⟨some jid, some nick⟩ =
      ({ st with
          sessions := dictSet st.sessions jid
            { jam with participants := dictSet jam.participants sid nick }
          sids_in_jams := dictSet st.sids_in_jams sid ⟨jid, nick⟩ },
       [Emit.session_join_success jid jam.playlist (dictSet jam.participants sid nick),
        Emit.update_participants jid (dictSet jam.participants sid nick)]) ∧
    (dictSet jam.participants sid nick).length = jam.participants.length ∧
    alookup (dictSet jam.participants sid nick) sid = some nick ∧
    (∀ k, k ≠ sid →
      alookup (dictSet jam.participants sid nick) k = alookup jam.participants k) := by
  refine ⟨?_, length_dictSet_of_lookup _ _ _ _ hmem, alookup_dictSet_self _ _ _, ?_⟩
  · simp only [join_session_handler, truthy_some_of_ne jid hjid, Option.getD_some]
    rw [if_neg (by simp)]
    rw [hjam]
    simp only []
    rw [if_neg (by simp [hactive])]
  · intro k hk
    rw [alookup_dictSet]
    rw [if_neg (fun h => hk h.symm)]

/-- C8 witness: the theorem on the concrete example — G, already a member
with nickname Guest, joins again with nickname G2. -/
theorem C8_witness :
    join_session_handler exSt "G" ⟨some "J", some "G2"⟩ =
      ({ exSt with
          sessions := dictSet exSt.sessions "J"
            { exJam with participants := dictSet exJam.participants "G" "G2" }
          sids_in_jams := dictSet exSt.sids_in_jams "G" ⟨"J", "G2"⟩ },
       [Emit.session_join_success "J" exJam.playlist
          (dictSet exJam.participants "G" "G2"),
        Emit.update_participants "J" (dictSet exJam.participants "G" "G2")]) ∧
    (dictSet exJam.participants "G" "G2").length = exJam.participants.length ∧
    alookup (dictSet exJam.participants "G" "G2") "G" = some "G2" ∧
    alookup (dictSet exJam.participants "G" "G2") "H" = alookup exJam.participants "H" :=
  ⟨(C8_join_idempotent exSt "G" "J" "G2" "Guest" exJam (by decide) rfl rfl
      (by decide)).1,
   (C8_join_idempotent exSt "G" "J" "G2" "Guest" exJam (by decide) rfl rfl
      (by decide)).2.1,
   (C8_join_idempotent exSt "G" "J" "G2" "Guest" exJam (by decide) rfl rfl
      (by decide)).2.2.1,
   (C8_join_idempotent exSt "G" "J" "G2" "Guest" exJam (by decide) rfl rfl
      (by decide)).2.2.2 "H" (by decide)⟩

/-- C9: two sequential authorized addTrack calls by the host with id-less
songs each stamp a fresh id drawn from the generator and append at the end,
so the playlist afterwards contains both songs in call order, with distinct
ids. -/
theorem C9_addTrack_appends_fresh_ids
    (st : ServerState) (sid jid : String) (jam : JamData) (a b : Song)
    (hjid : jid ≠ "")
    (hjam : alookup st.sessions jid = some jam)
    (hhost : jam.host_sid = sid)
    (ha_id : a.id = none) (ha_ty : a.song_type = some "audio")
    (ha_url : truthy a.url = true)
    (hb_id : b.id = none) (hb_ty : b.song_type = some "audio")
    (hb_url : truthy b.url = true) :
    ∃ st1 st2 : ServerState,
      add_song_to_jam st sid ⟨some jid, some a⟩ = Except.ok (st1, []) ∧
      add_song_to_jam st1 sid ⟨some jid, some b⟩ = Except.ok (st2, []) ∧
      (alookup st2.sessions jid).map (fun j => j.playlist) =
        some (jam.playlist ++
          [{ a with id := some (mkId st.nextId) },
           { b with id := some (mkId (st.nextId + 1)) }]) ∧
      mkId st.nextId ≠ mkId (st.nextId + 1) := by
  have h1 := add_song_success_fresh st sid jid jam a hjid hjam hhost ha_id ha_ty ha_url
  have hjam1 : alookup ({ st with
      sessions := dictSet st.sessions jid
        { jam with playlist :=
            jam.playlist ++ [{ a with id := some (mkId st.nextId) }] }
      nextId := st.nextId + 1 } : ServerState).sessions jid =
      some { jam with playlist :=
        jam.playlist ++ [{ a with id := some (mkId st.nextId) }] } :=
    alookup_dictSet_self _ _ _
  have h2 := add_song_success_fresh
    ({ st with
        sessions := dictSet st.sessions jid
          { jam with playlist :=
              jam.playlist ++ [{ a with id := some (mkId st.nextId) }] }
        nextId := st.nextId + 1 })
    sid jid
    ({ jam with playlist :=
        jam.playlist ++ [{ a with id := some (mkId st.nextId) }] })
    b hjid hjam1 hhost hb_id hb_ty hb_url
  refine ⟨_, _, h1, h2, ?_, ?_⟩
  · rw [alookup_dictSet_self]
    simp [List.append_assoc]
  · intro h
    have := mkId_injective h
    omega

/-- C9 witness: the theorem on the concrete example — the host adds two
id-less songs in a row. -/
theorem C9_witness :
    ∃ st1 st2 : ServerState,
      add_song_to_jam exSt "H"
          ⟨some "J", some { id := none, song_type := some "audio", videoId := none,
                            url := some "http://h/x", title := some "x" }⟩
        = Except.ok (st1, []) ∧
      add_song_to_jam st1 "H"
          ⟨some "J", some { id := none, song_type := some "audio", videoId := none,
                            url := some "http://h/y", title := some "y" }⟩
        = Except.ok (st2, []) ∧
      (alookup st2.sessions "J").map (fun j => j.playlist) =
        some (exJam.playlist ++
          [{ ({ id := none, song_type := some "audio", videoId := none,
                url := some "http://h/x", title := some "x" } : Song) with
              id := some (mkId exSt.nextId) },
           { ({ id := none, song_type := some "audio", videoId := none,
                url := some "http://h/y", title := some "y" } : Song) with
              id := some (mkId (exSt.nextId + 1)) }]) ∧
      mkId exSt.nextId ≠ mkId (exSt.nextId + 1) :=
  C9_addTrack_appends_fresh_ids exSt "H" "J" exJam
    { id := none, song_type := some "audio", videoId := none,
      url := some "http://h/x", title := some "x" }
    { id := none, song_type := some "audio", videoId := none,
      url := some "http://h/y", title := some "y" }
    (by decide) rfl rfl rfl rfl rfl rfl rfl rfl

/-- The example state satisfies the invariant for every stored session. -/
theorem exSt_inv : StateInv exSt := by
  intro jid jam h
  simp only [exSt, alookup] at h
  split at h
  · cases h
    exact ⟨⟨0, rfl, by norm_num⟩, ⟨true, rfl⟩, fun hh => absurd hh (by decide)⟩
  · cases h

/-- Creation establishes the invariant for the new session and keeps it for
the others. -/
theorem create_preserves_inv (st : ServerState) (h : StateInv st) (sid : String)
    (d : CreatePayload) : StateInv (create_session st sid d).1 := by
  intro k j hk
  simp only [create_session] at hk
  rw [alookup_dictSet] at hk
  split at hk
  · cases hk
    exact ⟨⟨0, rfl, by norm_num⟩, ⟨false, rfl⟩, fun _ => rfl⟩
  · exact h _ _ hk

/-- Joining touches only the participants map, so it preserves the
invariant. -/
theorem join_preserves_inv (st : ServerState) (h : StateInv st) (sid : String)
    (d : JoinPayload) : StateInv (join_session_handler st sid d).1 := by
  intro k j hk
  simp only [join_session_handler] at hk
  split at hk
  · exact h _ _ hk
  · split at hk
    · exact h _ _ hk
    · rename_i jam heq
      split at hk
      · exact h _ _ hk
      · rw [alookup_dictSet] at hk
        split at hk
        · cases hk
          have hs := h _ _ heq
          exact hs
        · exact h _ _ hk

/-- Adding a song appends to the playlist and leaves the playback state
alone, so it preserves the invariant. -/
theorem add_preserves_inv (st : ServerState) (h : StateInv st) (sid : String)
    (d : AddPayload) (out : ServerState × List Emit)
    (hout : add_song_to_jam st sid d = Except.ok out) : StateInv out.1 := by
  have hsess : ∀ st' : ServerState, st'.sessions = st.sessions → StateInv st' := by
    intro st' hs k j hk
    rw [hs] at hk
    exact h _ _ hk
  obtain ⟨jid, song⟩ := d
  cases song with
  | none => cases hout
  | some song0 =>
    by_cases hc : song0.id = none
    · simp only [add_song_to_jam, hc, if_pos] at hout
      split at hout
      · cases hout; exact hsess _ rfl
      · split at hout
        · cases hout; exact hsess _ rfl
        · split at hout
          · cases hout; exact hsess _ rfl
          · split at hout
            · cases hout; exact hsess _ rfl
            · rename_i jam heq
              split at hout
              · cases hout; exact hsess _ rfl
              · cases hout
                intro k j hk
                rw [alookup_dictSet] at hk
                split at hk
                · cases hk
                  obtain ⟨⟨n, hn, h0, hlt⟩, hb, _⟩ := h _ _ heq
                  refine ⟨⟨n, hn, h0, ?_⟩, hb, fun hap => absurd hap (by simp)⟩
                  simp only [List.length_append, List.length_cons,
                    List.length_nil]
                  push_cast
                  omega
                · exact h _ _ hk
    · simp only [add_song_to_jam, hc, if_neg, if_false] at hout
      split at hout
      · cases hout; exact hsess _ rfl
      · split at hout
        · cases hout; exact hsess _ rfl
        · split at hout
          · cases hout; exact hsess _ rfl
          · split at hout
            · cases hout; exact hsess _ rfl
            · rename_i jam heq
              split at hout
              · cases hout; exact hsess _ rfl
              · cases hout
                intro k j hk
                rw [alookup_dictSet] at hk
                split at hk
                · cases hk
                  obtain ⟨⟨n, hn, h0, hlt⟩, hb, _⟩ := h _ _ heq
                  refine ⟨⟨n, hn, h0, ?_⟩, hb, fun hap => absurd hap (by simp)⟩
                  simp only [List.length_append, List.length_cons,
                    List.length_nil]
                  push_cast
                  omega
                · exact h _ _ hk

/-- Removal adjusts the index exactly so that the invariant survives. -/
theorem remove_preserves_inv (st : ServerState) (h : StateInv st) (sid : String)
    (d : RemovePayload) : StateInv (remove_song_from_jam st sid d).1 := by
  intro k j hk
  simp only [remove_song_from_jam] at hk
  split at hk
  · exact h _ _ hk
  · split at hk
    · exact h _ _ hk
    · rename_i jam heq
      split at hk
      · exact h _ _ hk
      · split at hk
        · exact h _ _ hk
        · rename_i i hidx
          split at hk
          · exact h _ _ hk
          · rename_i cti hcti
            rw [alookup_dictSet] at hk
            split at hk
            · cases hk
              obtain ⟨⟨n, hn, h0, hlt⟩, ⟨b, hb⟩, _⟩ := h _ _ heq
              have hcn : cti = n := by
                rw [hcti] at hn
                injection hn
              subst hcn
              have hi : i < jam.playlist.length :=
                findSongIdx_lt_length _ _ _ hidx
              have hlen : (jam.playlist.eraseIdx i).length =
                  jam.playlist.length - 1 := by
                rw [List.length_eraseIdx]
                simp [hi]
              refine ⟨⟨_, rfl, ?_, ?_⟩,
                ⟨b && decide (0 < (jam.playlist.eraseIdx i).length),
                  by rw [hb, pyAnd_some]⟩, ?_⟩
              · rw [hlen]
                split_ifs <;> omega
              · rw [hlen]
                split_ifs <;> omega
              · intro hap
                have hap' : jam.playlist.eraseIdx i = [] := hap
                have hz : (jam.playlist.eraseIdx i).length = 0 := by
                  rw [hap']
                  rfl
                show pyAnd jam.playback_state.is_playing
                    (decide (0 < (jam.playlist.eraseIdx i).length)) = some false
                rw [hb, pyAnd_some, hz]
                simp
            · exact h _ _ hk

/-- C2 counterexample: the example state satisfies the invariant for every
stored session, yet a single host sync_playback_state (track index 5 with an
empty playlist, unvalidated by the handler) produces a stored session that
violates 0 ≤ currentTrackIndex < max(1, len(playlist)), contrary to the
claim's inclusion of playback sync among the preserving operations. -/
theorem C2_counterexample :
    StateInv exSt ∧
    alookup (sync_playback_state exSt "H"
        ⟨some "J", some 5, some 0, some true, some [], none⟩).1.sessions "J"
      = some exBadJam ∧
    ¬ sessionInvariant exBadJam := by
  refine ⟨exSt_inv, rfl, ?_⟩
  rintro ⟨⟨n, hn, -, hlt⟩, -, -⟩
  have hn5 : n = 5 := by
    have : (some 5 : Option Int) = some n := hn
    injection this with h5
    omega
  subst hn5
  have : ((exBadJam.playlist.length : Int)) = 0 := rfl
  rw [this] at hlt
  omega

/-- C2 amended: the invariant 0 ≤ currentTrackIndex < max(1, len(playlist))
(with isPlaying a boolean forced false on an empty playlist) is established
by create and preserved by join, add-track and remove-track; it is not
preserved by playback sync, which writes the client's index unvalidated
(see the counterexample), so the claim holds only once playback sync is
dropped from its list of operations. -/
theorem C2_invariant_preserved_except_sync
    (st : ServerState) (h : StateInv st) (sid : String)
    (dC : CreatePayload) (dJ : JoinPayload) (dA : AddPayload)
    (dR : RemovePayload) (outA : ServerState × List Emit)
    (houtA : add_song_to_jam st sid dA = Except.ok outA) :
    StateInv (create_session st sid dC).1 ∧
    StateInv (join_session_handler st sid dJ).1 ∧
    StateInv outA.1 ∧
    StateInv (remove_song_from_jam st sid dR).1 :=
  ⟨create_preserves_inv st h sid dC,
   join_preserves_inv st h sid dJ,
   add_preserves_inv st h sid dA outA houtA,
   remove_preserves_inv st h sid dR⟩

/-- C2 witness: the amended theorem at the concrete example state with
concrete payloads for all four operations. -/
theorem C2_witness :
    StateInv (create_session exSt "H" ⟨some "Party", some "Nick"⟩).1 ∧
    StateInv (join_session_handler exSt "H" ⟨some "J", some "H2"⟩).1 ∧
    StateInv (({ exSt with
        sessions := dictSet exSt.sessions "J"
          { exJam with playlist := exJam.playlist ++ [exSong "c"] } },
        ([] : List Emit)) : ServerState × List Emit).1 ∧
    StateInv (remove_song_from_jam exSt "H" ⟨some "J", some "a"⟩).1 :=
  C2_invariant_preserved_except_sync exSt exSt_inv "H"
    ⟨some "Party", some "Nick"⟩ ⟨some "J", some "H2"⟩
    ⟨some "J", some (exSong "c")⟩ ⟨some "J", some "a"⟩
    ({ exSt with
        sessions := dictSet exSt.sessions "J"
          { exJam with playlist := exJam.playlist ++ [exSong "c"] } }, [])
    rfl

end TuneJam
